import Mathlib

set_option autoImplicit false

/-!
Verification development for the influx client module
(src/python/influx/influx_client.py): a shallow embedding of the write
buffer, the batch flusher, the metrics recorder, the selection-query
executor and the retention-policy / continuous-query reconciliation, with
theorems about the buffering and reconciliation behaviour.

Modelling conventions:

* Python dicts are embedded as association lists with in-place update
  (`aset`) and first-match lookup (`alookup`); this reproduces the
  insertion-order iteration and key-overwrite semantics of a dict.
* Machine floats (`time.perf_counter` differences, the `duration_ms`
  arithmetic) are embedded as exact rationals.
* The influxdb driver is an external collaborator: each of its calls is
  represented by an outcome value chosen by an environment parameter, and
  the calls issued by the embedded code are recorded in traces.
* Exceptions are embedded as `Except String` / an `err : Option String`
  field; an uncaught exception aborts the rest of the embedded function
  exactly where the Python exception would propagate.
-/

/-- String literals used by the embedding (collected here once). -/
def emptyStr : String := ""

def strA : String := "A"

def strB : String := "B"

def metricsTableName : String := "influx_metrics"

def fldDurationMs : String := "duration_ms"

def fldItemCount : String := "item_count"

def tagKeywordStr : String := "keyword"

def tagTableNameStr : String := "tableName"

def kwSelectStr : String := "SELECT"

def kwInsertStr : String := "INSERT"

def kwDeleteStr : String := "DELETE"

def errNoTables : String := "need at least one entry of a table in tables_count."

def errDuration : String := "only positive values are supported for duration. Must be not 0"

def errBatchSize : String := "only positive values are supported for batch_size. Must be not 0"

def errConnection : String := "ConnectionError"

def errTableName : String := "table name needs to be set in insert"

def errRpMultipleDefault : String := "multiple Retention Policies are declared as default"

def errRpCheckFailed : String := "Retention Policies check failed"

/-- First-match lookup in an association list; the embedding of reading a
Python dict entry (`d.get(k)` / `d[k]`). -/
def alookup {α β : Type} [DecidableEq α] : List (α × β) → α → Option β
  | [], _ => none
  | p :: rest, a => if p.1 = a then some p.2 else alookup rest a

/-- In-place update of an association list; the embedding of a Python dict
item assignment `d[k] = v`: an existing key keeps its position, a new key is
appended at the end (insertion order). -/
def aset {α β : Type} [DecidableEq α] : List (α × β) → α → β → List (α × β)
  | [], a, b => [(a, b)]
  | p :: rest, a, b => if p.1 = a then (a, b) :: rest else p :: aset rest a b

/-- A table, identified by its name (`database_tables.Table`; identity is the
name, which is how tables behave as dict keys). -/
structure Table where
  name : String
deriving DecidableEq

/-- The `Keyword` enumeration from influx_queries: the kind of operation a
metrics record describes. -/
inductive Keyword
  | select
  | insert
  | delete
deriving DecidableEq

/-- Rendering of a `Keyword` to its tag string. -/
def Keyword.str : Keyword → String
  | Keyword.select => kwSelectStr
  | Keyword.insert => kwInsertStr
  | Keyword.delete => kwDeleteStr

/-- A typed field value of an insert query (string / int / float / bool);
floats are embedded as exact rationals. -/
inductive FieldValue
  | s (v : String)
  | i (v : Int)
  | q (v : ℚ)
  | b (v : Bool)
deriving DecidableEq

/-- One row to write: target table, field map, tag map, timestamp
(`influx_queries.InsertQuery`). -/
structure InsertQuery where
  table : Table
  fields : List (String × FieldValue)
  tags : List (String × String)
  time_stamp : Int
deriving DecidableEq

/-- Modelled from the spec: an `InsertQuery` serializes deterministically to
one line of the write protocol. The renderer lives in the external
influx_queries module (not under src/); the flush logic only depends on each
buffered query becoming exactly one line, so the rendering is abstracted to
the table name. -/
def InsertQuery.to_query (q : InsertQuery) : String := q.table.name

/-- The insert buffer: mapping from table to the ordered list of pending
insert queries (`InfluxClient.__insert_buffer`). -/
abbrev Buffer := List (Table × List InsertQuery)

/-- `InfluxClient.__query_max_batch_size`: maximum amount of queries sent at
once to the influxdb. -/
def query_max_batch_size : Nat := 10000

/-- The reserved metrics table `self.__metrics_table`, which is
`database['influx_metrics']`. -/
def metrics_table : Table := Table.mk metricsTableName

/-- The per-table duration apportionment computed inside
`__insert_metrics_to_buffer`:
`duration_s * 1000 * (max(item_count, 1) / batch_size)`. -/
def duration_ms (duration_s : ℚ) (item_count batch_size : Nat) : ℚ :=
  duration_s * 1000 * (((max item_count 1 : Nat) : ℚ) / ((batch_size : Nat) : ℚ))

/-- The synthetic metrics `InsertQuery` built for one table inside
`__insert_metrics_to_buffer`: fields `duration_ms` and `item_count`, tags
`keyword` and `tableName`, timestamp from `SppUtils.get_actual_time_sec`
(passed in as `now`). -/
def metricRecord (kw : Keyword) (t : Table) (item_count : Nat) (duration_s : ℚ)
    (batch_size : Nat) (now : Int) : InsertQuery :=
  InsertQuery.mk metrics_table
    [(fldDurationMs, FieldValue.q (duration_ms duration_s item_count batch_size)),
     (fldItemCount, FieldValue.i (Int.ofNat item_count))]
    [(tagKeywordStr, kw.str), (tagTableNameStr, t.name)]
    now

/-- Embedding of `InfluxClient.__insert_metrics_to_buffer`: argument checks in
source order (the `None` and `isinstance` checks are unrepresentable in the
typed embedding), then one metrics record per involved table appended to the
metrics table entry of the buffer. -/
def insert_metrics_to_buffer (keyword : Keyword) (tables_count : List (Table × Nat))
    (duration_s : ℚ) (batch_size : Nat) (now : Int) (buf : Buffer) :
    Except String Buffer :=
  if tables_count = [] then Except.error errNoTables
  else if duration_s ≤ 0 then Except.error errDuration
  else if batch_size < 1 then Except.error errBatchSize
  else Except.ok (aset buf metrics_table
    ((alookup buf metrics_table).getD [] ++
      tables_count.map (fun p => metricRecord keyword p.1 p.2 duration_s batch_size now)))

/-- Outcome of one `write_points` driver call, chosen by the environment.
`clientError` and `serverError` are the influxdb exceptions caught by
`flush_insert_buffer`; `connectionError` is
`requests.exceptions.ConnectionError`, which that function does not catch. -/
inductive WriteOutcome
  | ok
  | clientError
  | serverError
  | connectionError
deriving DecidableEq

/-- Result of a flush: the buffer afterwards, the `write_points` calls that
were attempted (table and number of lines), and the uncaught exception if the
flush aborted. -/
structure FlushResult where
  buffer : Buffer
  writes : List (Table × Nat)
  err : Option String
deriving DecidableEq

/-- The per-table loop of `flush_insert_buffer`: for each snapshot entry,
attempt `write_points` (an `InfluxDBServerError` / `InfluxDBClientError` is
caught and only logged; a `requests` connection error propagates), then append
the metrics record via `__insert_metrics_to_buffer` with the batch size equal
to that table's line count (whose own `ValueError` also propagates). -/
def flushTables (env : Table → WriteOutcome) (dur : Table → ℚ) (now : Int) :
    List (Table × List String) → Buffer → List (Table × Nat) → FlushResult
  | [], buf, writes => FlushResult.mk buf writes none
  | p :: rest, buf, writes =>
    match env p.1 with
    | WriteOutcome.connectionError =>
        FlushResult.mk buf (writes ++ [(p.1, p.2.length)]) (some errConnection)
    | _ =>
        match insert_metrics_to_buffer Keyword.insert [(p.1, p.2.length)]
            (dur p.1) p.2.length now buf with
        | Except.error e => FlushResult.mk buf (writes ++ [(p.1, p.2.length)]) (some e)
        | Except.ok buf2 => flushTables env dur now rest buf2 (writes ++ [(p.1, p.2.length)])

/-- Embedding of `InfluxClient.flush_insert_buffer`: an empty buffer returns
immediately (the `is None` guard is unrepresentable); otherwise the whole
buffer is serialized into `insert_list`, the buffer is cleared, and the
per-table loop runs on the snapshot starting from the cleared (empty) buffer.
`env` chooses each `write_points` outcome, `dur` the measured wall-clock
duration per table, `now` the metrics timestamp. -/
def flush_insert_buffer (env : Table → WriteOutcome) (dur : Table → ℚ) (now : Int)
    (buf : Buffer) : FlushResult :=
  if buf = [] then FlushResult.mk buf [] none
  else flushTables env dur now (buf.map (fun p => (p.1, p.2.map InsertQuery.to_query))) [] []

/-- A raw dict row passed to `insert_dicts_to_buffer`: either it classifies
into (tags, values, timestamp) or classification fails. -/
inductive RawRow
  | good (tags : List (String × String)) (fields : List (String × FieldValue)) (ts : Int)
  | bad
deriving DecidableEq

/-- Modelled from the spec: `Table.split_by_table_def` classifies one dict row
into (tags, values, timestamp) or raises `ValueError`, in which case the row
is skipped. The classifier lives in the external database_tables module (not
under src/), so a raw row is modelled as either carrying its classified parts
or failing classification. -/
def rowToQuery (t : Table) : RawRow → Option InsertQuery
  | RawRow.good tags fields ts => some (InsertQuery.mk t fields tags ts)
  | RawRow.bad => none

/-- Embedding of `InfluxClient.insert_dicts_to_buffer`: reject an unset table
name, return unchanged on an empty row list, skip rows failing classification,
extend the table's buffer entry, and trigger one full flush if the pending
count of this table now exceeds `5 * query_max_batch_size` (strictly).
Returns the new buffer and how many implicit flushes ran. -/
def insert_dicts_to_buffer (env : Table → WriteOutcome) (dur : Table → ℚ) (now : Int)
    (t : Table) (rows : List RawRow) (buf : Buffer) : Except String (Buffer × Nat) :=
  if t.name = emptyStr then Except.error errTableName
  else if rows = [] then Except.ok (buf, 0)
  else
    let table_buffer := (alookup buf t).getD [] ++ rows.filterMap (rowToQuery t)
    let buf2 := aset buf t table_buffer
    if 5 * query_max_batch_size < ((alookup buf2 t).getD []).length then
      let fr := flush_insert_buffer env dur now buf2
      match fr.err with
      | some e => Except.error e
      | none => Except.ok (fr.buffer, 1)
    else Except.ok (buf2, 0)

/-- The driver's result set, reduced to its shape: the list of series, each a
list of rows. An influxdb `ResultSet` built from an empty raw dict has no
series and is falsy; `ResultSet.mk []` is that empty, well-formed value. -/
structure ResultSet where
  series : List (List Unit)
deriving DecidableEq

/-- A `SELECT` or `DELETE` selection query
(`influx_queries.SelectionQuery`). -/
structure SelectionQuery where
  keyword : Keyword
  tables : List Table
  fields : List String
  where_str : Option String
deriving DecidableEq

/-- Modelled from the spec: `SelectionQuery.to_query` renders the query to its
canonical string in the external influx_queries module; the executor only
hands the rendered string to the driver, so the rendering is abstracted to the
keyword tag. -/
def SelectionQuery.to_query (q : SelectionQuery) : String := q.keyword.str

/-- Outcome of the `query` driver call: a result set, a caught influxdb
client/server error, or an uncaught `requests` connection error. -/
inductive QueryOutcome
  | ok (rs : ResultSet)
  | influxError
  | connectionError
deriving DecidableEq

/-- One call issued to the database driver, for ordering arguments:
`write_points` (with its line count) or `query`. -/
inductive DriverOp
  | write (t : Table) (lines : Nat)
  | queryOp (s : String)
deriving DecidableEq

/-- Result of `send_selection_query`: the returned (or raised) result, the
buffer afterwards, and the trace of driver calls in order. -/
structure SelOutput where
  result : Except String ResultSet
  buffer : Buffer
  trace : List DriverOp

/-- The tail of `send_selection_query` after the try/except around
`self.__client.query`: compute the row count of the first series (0 for a
falsy result), divide it evenly over the queried tables, and append one
metrics record per table (default batch size 1). -/
def selFinish (kw : Keyword) (tables : List Table) (qstr : String) (qdur : ℚ)
    (now : Int) (result : ResultSet) (buf : Buffer) (wtrace : List DriverOp) :
    SelOutput :=
  let len := if result.series.isEmpty then 0 else (result.series.headD []).length
  let tables_count := tables.map (fun t => (t, len / tables.length))
  match insert_metrics_to_buffer kw tables_count qdur 1 now buf with
  | Except.error e => SelOutput.mk (Except.error e) buf (wtrace ++ [DriverOp.queryOp qstr])
  | Except.ok buf2 => SelOutput.mk (Except.ok result) buf2 (wtrace ++ [DriverOp.queryOp qstr])

/-- Embedding of `InfluxClient.send_selection_query`: if any queried table is
a key of the insert buffer, run a full flush first (its uncaught errors
propagate); then send the query (`InfluxDBServerError` / `InfluxDBClientError`
is caught and replaced by the empty result set, a `requests` connection error
propagates), and record the metrics. -/
def send_selection_query (env : Table → WriteOutcome) (dur : Table → ℚ) (now : Int)
    (qout : QueryOutcome) (qdur : ℚ) (q : SelectionQuery) (buf : Buffer) : SelOutput :=
  let fr := if q.tables.any (fun t => (alookup buf t).isSome)
    then flush_insert_buffer env dur now buf
    else FlushResult.mk buf [] none
  let wtrace := fr.writes.map (fun p => DriverOp.write p.1 p.2)
  match fr.err with
  | some e => SelOutput.mk (Except.error e) fr.buffer wtrace
  | none =>
    match qout with
    | QueryOutcome.connectionError =>
        SelOutput.mk (Except.error errConnection) fr.buffer
          (wtrace ++ [DriverOp.queryOp q.to_query])
    | QueryOutcome.influxError =>
        selFinish q.keyword q.tables q.to_query qdur now (ResultSet.mk []) fr.buffer wtrace
    | QueryOutcome.ok rs =>
        selFinish q.keyword q.tables q.to_query qdur now rs fr.buffer wtrace

/-- A declared retention policy (`database_tables.RetentionPolicy`): name,
duration, replication factor, shard-group duration, default flag. -/
structure RetentionPolicy where
  name : String
  duration : String
  replication : Nat
  shard_duration : String
  default : Bool
deriving DecidableEq

/-- Modelled from the spec: `RetentionPolicy.to_dict` (external
database_tables module, not under src/) renders the declared policy in the
same shape the server reports it, and `check_create_rp` compares the fetched
description structurally against it; the rendering is abstracted by letting a
server description be a `RetentionPolicy` value and `to_dict` the identity. -/
def RetentionPolicy.to_dict (rp : RetentionPolicy) : RetentionPolicy := rp

/-- One server call issued by `check_create_rp`: the initial
`get_list_retention_policies` fetch, `create_retention_policy`, or
`alter_retention_policy`. -/
inductive RpOp
  | fetchList
  | create (name : String)
  | alter (name : String)
deriving DecidableEq

/-- The desired-state walk of `check_create_rp`: track whether a default
policy was already seen (raising on the second one), and partition the
declared policies into missing ones (`add`) and present-but-different ones
(`alter`). -/
def rpWalk (rp_dict : List (String × RetentionPolicy)) :
    List RetentionPolicy → Bool → List RetentionPolicy → List RetentionPolicy →
    Except String (List RetentionPolicy × List RetentionPolicy)
  | [], _, addL, altL => Except.ok (addL, altL)
  | rp :: rest, default_used, addL, altL =>
    if rp.default && default_used then Except.error errRpMultipleDefault
    else
      let du := default_used || rp.default
      match alookup rp_dict rp.name with
      | none => rpWalk rp_dict rest du (addL ++ [rp]) altL
      | some res =>
        if res = rp.to_dict then rpWalk rp_dict rest du addL altL
        else rpWalk rp_dict rest du addL (altL ++ [rp])

/-- Embedding of `InfluxClient.check_create_rp`: fetch the server's retention
policies first (`get_list_retention_policies`, built into a name-keyed dict),
then walk the declared set; a `ValueError` raised inside (multiple defaults)
is caught by the outer handler and re-raised as the generic check failure.
On success, create the missing policies then alter the differing ones.
Returns the trace of server calls and the raised error, if any. -/
def check_create_rp (server : List RetentionPolicy) (desired : List RetentionPolicy) :
    List RpOp × Option String :=
  let rp_dict := server.foldl (fun d r => aset d r.name r) []
  match rpWalk rp_dict desired false [] [] with
  | Except.error _ => ([RpOp.fetchList], some errRpCheckFailed)
  | Except.ok (addL, altL) =>
      (RpOp.fetchList ::
        (addL.map (fun r => RpOp.create r.name) ++ altL.map (fun r => RpOp.alter r.name)),
       none)

/-- A declared continuous query: its name and, modelled from the spec, the
canonical rendered form of its `SELECT` definition (`to_query` lives in the
external influx_queries module, not under src/; `check_create_cq` compares the
server-reported query string against exactly this rendered string). -/
structure ContinuousQuery where
  name : String
  query : String
deriving DecidableEq

/-- One server call issued by `check_create_cq`: the initial
`get_list_continuous_queries` fetch, `drop_continuous_query`, or
`create_continuous_query`. -/
inductive CqOp
  | fetchList
  | drop (name : String)
  | create (name : String)
deriving DecidableEq

/-- The name-keyed dict the source builds from the server's reported
continuous queries (later duplicates overwrite earlier ones, as in a Python
dict). -/
def cqServerDict (server : List (String × String)) : List (String × String) :=
  server.foldl (fun d p => aset d p.1 p.2) []

/-- The `add_cq_list` built by the desired-state walk of `check_create_cq`:
the declared continuous queries absent from the server's reported set (the
one-pass walk of the source appends to `add` and `alter` in desired order, so
it equals these two order-preserving filters). -/
def cqAdd (server : List (String × String)) (desired : List ContinuousQuery) :
    List ContinuousQuery :=
  desired.filter (fun cq => (alookup (cqServerDict server) cq.name).isNone)

/-- The `alter_cq_list` of `check_create_cq`: declared continuous queries
present on the server but whose reported query string differs from the
declared rendered form. -/
def cqAlt (server : List (String × String)) (desired : List ContinuousQuery) :
    List ContinuousQuery :=
  desired.filter (fun cq =>
    match alookup (cqServerDict server) cq.name with
    | none => false
    | some qs => decide (qs ≠ cq.query))

/-- Embedding of `InfluxClient.check_create_cq`: fetch the server's continuous
queries, partition the declared set into absent ones (`add`) and
present-but-different ones (`alter`); drop every `alter` entry, merge the
`alter` list into the `add` list, then create everything in the merged list.
Returns the trace of server calls. -/
def check_create_cq (server : List (String × String)) (desired : List ContinuousQuery) :
    List CqOp :=
  CqOp.fetchList ::
    ((cqAlt server desired).map (fun cq => CqOp.drop cq.name) ++
      ((cqAdd server desired) ++ (cqAlt server desired)).map (fun cq => CqOp.create cq.name))

/-- The attribute state relevant to `__insert_buffer` sharing: the dict object
stored in the class attribute (`InfluxClient.__insert_buffer`, initialised
once at class creation), and any per-instance attribute bindings. Python
attribute lookup on `self` falls back to the class attribute when the instance
has no own binding; item assignment (`self.__insert_buffer[k] = v`) and
`clear()` mutate the object the lookup resolved to and never create an
instance binding, and no method of the source ever assigns the attribute
itself. -/
structure World where
  classBuf : Buffer
  overrides : List (Nat × Buffer)
deriving DecidableEq

/-- Attribute read `self.__insert_buffer` for instance `i`: the instance
binding if one exists, otherwise the class attribute. -/
def World.read (w : World) (i : Nat) : Buffer :=
  (alookup w.overrides i).getD w.classBuf

/-- In-place mutation of the buffer object instance `i` resolves to: if the
instance has its own binding that object is updated, otherwise the mutation
lands on the shared class attribute. -/
def World.writeBack (w : World) (i : Nat) (b : Buffer) : World :=
  match alookup w.overrides i with
  | some _ => World.mk w.classBuf (aset w.overrides i b)
  | none => World.mk b w.overrides

/-- `insert_dicts_to_buffer` invoked through instance `i`: all buffer reads
and mutations inside the call resolve through the attribute lookup of `i`. -/
def insert_dicts_via (env : Table → WriteOutcome) (dur : Table → ℚ) (now : Int)
    (i : Nat) (t : Table) (rows : List RawRow) (w : World) :
    Except String (World × Nat) :=
  match insert_dicts_to_buffer env dur now t rows (w.read i) with
  | Except.error e => Except.error e
  | Except.ok (b, n) => Except.ok (w.writeBack i b, n)

/-- `flush_insert_buffer` invoked through instance `i`. -/
def flush_via (env : Table → WriteOutcome) (dur : Table → ℚ) (now : Int)
    (i : Nat) (w : World) : World × List (Table × Nat) × Option String :=
  let fr := flush_insert_buffer env dur now (w.read i)
  (w.writeBack i fr.buffer, fr.writes, fr.err)

/-- The buffer effect of one iteration of the flush loop: the metrics record
of that table is appended to the metrics-table entry. -/
def appendOneMetric (dur : Table → ℚ) (now : Int) (buf : Buffer)
    (p : Table × List String) : Buffer :=
  aset buf metrics_table
    ((alookup buf metrics_table).getD [] ++
      [metricRecord Keyword.insert p.1 p.2.length (dur p.1) p.2.length now])

/-- Concrete tables, environments and inputs used by the closed
counterexample and witness theorems. -/
def tA : Table := Table.mk strA

def tB : Table := Table.mk strB

def envOk : Table → WriteOutcome := fun _ => WriteOutcome.ok

def envServerErrB : Table → WriteOutcome := fun t =>
  if t = tB then WriteOutcome.serverError else WriteOutcome.ok

def envConnA : Table → WriteOutcome := fun t =>
  if t = tA then WriteOutcome.connectionError else WriteOutcome.ok

def dur1 : Table → ℚ := fun _ => 1

def qryA : InsertQuery := InsertQuery.mk tA [] [] 0

def qryB : InsertQuery := InsertQuery.mk tB [] [] 0

def bufAB : Buffer := [(tA, [qryA]), (tB, [qryB])]

def selA : SelectionQuery := SelectionQuery.mk Keyword.select [tA] [] none

def rpDurStr : String := "90d"

def rpShardStr : String := "1d"

def rpDefA : RetentionPolicy := RetentionPolicy.mk strA rpDurStr 1 rpShardStr true

def rpDefB : RetentionPolicy := RetentionPolicy.mk strB rpDurStr 1 rpShardStr true

/-! Helper lemmas about the association-list embedding of dicts. -/

@[simp]
theorem alookup_nil {α β : Type} [DecidableEq α] (a : α) :
    alookup ([] : List (α × β)) a = none := rfl

@[simp]
theorem alookup_aset_self {α β : Type} [DecidableEq α]
    (l : List (α × β)) (a : α) (b : β) : alookup (aset l a b) a = some b := by
  induction l with
  | nil => simp [aset, alookup]
  | cons p rest ih =>
    by_cases h : p.1 = a
    · simp [aset, alookup, h]
    · simp [aset, alookup, h, ih]

theorem aset_aset_self {α β : Type} [DecidableEq α]
    (l : List (α × β)) (a : α) (b c : β) : aset (aset l a b) a c = aset l a c := by
  induction l with
  | nil => simp [aset]
  | cons p rest ih =>
    by_cases h : p.1 = a
    · simp [aset, h]
    · simp [aset, h, ih]

theorem filterMap_replicate_some {α β : Type} (f : α → Option β) (a : α) (b : β)
    (h : f a = some b) (n : Nat) :
    (List.replicate n a).filterMap f = List.replicate n b := by
  induction n with
  | zero => simp
  | succ n ih => simp [List.replicate_succ, List.filterMap_cons, h, ih]

theorem filterMap_replicate_none {α β : Type} (f : α → Option β) (a : α)
    (h : f a = none) (n : Nat) :
    (List.replicate n a).filterMap f = [] := by
  induction n with
  | zero => simp
  | succ n ih => simp [List.replicate_succ, List.filterMap_cons, h, ih]

/-! Helper lemmas about the metrics recorder and the flush loop. -/

theorem insert_metrics_ok (kw : Keyword) (tc : List (Table × Nat)) (d : ℚ)
    (bs : Nat) (now : Int) (buf : Buffer)
    (h1 : tc ≠ []) (h2 : 0 < d) (h3 : 1 ≤ bs) :
    insert_metrics_to_buffer kw tc d bs now buf =
      Except.ok (aset buf metrics_table
        ((alookup buf metrics_table).getD [] ++
          tc.map (fun p => metricRecord kw p.1 p.2 d bs now))) := by
  unfold insert_metrics_to_buffer
  rw [if_neg h1, if_neg (not_le.mpr h2), if_neg (Nat.not_lt.mpr h3)]

theorem flushTables_ok (env : Table → WriteOutcome) (dur : Table → ℚ) (now : Int)
    (snap : List (Table × List String)) (buf : Buffer) (ws : List (Table × Nat))
    (hne : ∀ p ∈ snap, p.2 ≠ [])
    (henv : ∀ p ∈ snap, env p.1 ≠ WriteOutcome.connectionError)
    (hdur : ∀ p ∈ snap, 0 < dur p.1) :
    flushTables env dur now snap buf ws =
      FlushResult.mk (snap.foldl (appendOneMetric dur now) buf)
        (ws ++ snap.map (fun p => (p.1, p.2.length))) none := by
  induction snap generalizing buf ws with
  | nil => simp [flushTables]
  | cons p rest ih =>
    have h1 : p.2 ≠ [] := hne p (by simp)
    have hlen : 1 ≤ p.2.length := List.length_pos.mpr h1
    have hd : 0 < dur p.1 := hdur p (by simp)
    have hmet := insert_metrics_ok Keyword.insert [(p.1, p.2.length)] (dur p.1)
      p.2.length now buf (by simp) hd hlen
    have hrest := ih (appendOneMetric dur now buf p) (ws ++ [(p.1, p.2.length)])
      (fun x hx => hne x (List.mem_cons_of_mem p hx))
      (fun x hx => henv x (List.mem_cons_of_mem p hx))
      (fun x hx => hdur x (List.mem_cons_of_mem p hx))
    have hstep : flushTables env dur now (p :: rest) buf ws =
        flushTables env dur now rest (appendOneMetric dur now buf p)
          (ws ++ [(p.1, p.2.length)]) := by
      cases he : env p.1 with
      | connectionError => exact absurd he (henv p (List.mem_cons_self p rest))
      | ok =>
        simp only [flushTables, he, hmet, List.map_cons, List.map_nil, appendOneMetric]
      | clientError =>
        simp only [flushTables, he, hmet, List.map_cons, List.map_nil, appendOneMetric]
      | serverError =>
        simp only [flushTables, he, hmet, List.map_cons, List.map_nil, appendOneMetric]
    rw [hstep, hrest]
    simp [List.foldl_cons, List.append_assoc]

theorem foldl_appendOneMetric_inv (dur : Table → ℚ) (now : Int)
    (snap : List (Table × List String)) (recs : List InsertQuery) :
    snap.foldl (appendOneMetric dur now) [(metrics_table, recs)] =
      [(metrics_table, recs ++ snap.map (fun p =>
        metricRecord Keyword.insert p.1 p.2.length (dur p.1) p.2.length now))] := by
  induction snap generalizing recs with
  | nil => simp
  | cons p rest ih =>
    have hone : appendOneMetric dur now [(metrics_table, recs)] p =
        [(metrics_table, recs ++
          [metricRecord Keyword.insert p.1 p.2.length (dur p.1) p.2.length now])] := by
      simp [appendOneMetric, alookup, aset]
    simp only [List.foldl_cons, hone, ih, List.map_cons, List.append_assoc,
      List.singleton_append]

theorem foldl_appendOneMetric_from_empty (dur : Table → ℚ) (now : Int)
    (snap : List (Table × List String)) (h : snap ≠ []) :
    snap.foldl (appendOneMetric dur now) [] =
      [(metrics_table, snap.map (fun p =>
        metricRecord Keyword.insert p.1 p.2.length (dur p.1) p.2.length now))] := by
  cases snap with
  | nil => exact absurd rfl h
  | cons p rest =>
    have hone : appendOneMetric dur now [] p =
        [(metrics_table,
          [metricRecord Keyword.insert p.1 p.2.length (dur p.1) p.2.length now])] := by
      simp [appendOneMetric, alookup, aset]
    simp only [List.foldl_cons, hone, foldl_appendOneMetric_inv, List.map_cons,
      List.singleton_append]

/-- Behaviour of a successful flush of a non-empty buffer: the buffer
afterwards holds exactly the metrics records of this flush, one write per
snapshot table was attempted, and no exception escaped. -/
theorem flush_insert_buffer_ok (env : Table → WriteOutcome) (dur : Table → ℚ)
    (now : Int) (buf : Buffer)
    (hne : ∀ p ∈ buf, p.2 ≠ ([] : List InsertQuery))
    (henv : ∀ p ∈ buf, env p.1 ≠ WriteOutcome.connectionError)
    (hdur : ∀ p ∈ buf, 0 < dur p.1)
    (h : buf ≠ []) :
    flush_insert_buffer env dur now buf =
      FlushResult.mk
        [(metrics_table, buf.map (fun p =>
          metricRecord Keyword.insert p.1 p.2.length (dur p.1) p.2.length now))]
        (buf.map (fun p => (p.1, p.2.length))) none := by
  have hsne : buf.map (fun p => (p.1, p.2.map InsertQuery.to_query)) ≠ [] := by
    simpa using h
  have h1 : ∀ p ∈ buf.map (fun p => (p.1, p.2.map InsertQuery.to_query)),
      p.2 ≠ ([] : List String) := by
    intro p hp
    rcases List.mem_map.mp hp with ⟨q, hq, rfl⟩
    simpa using hne q hq
  have h2 : ∀ p ∈ buf.map (fun p => (p.1, p.2.map InsertQuery.to_query)),
      env p.1 ≠ WriteOutcome.connectionError := by
    intro p hp
    rcases List.mem_map.mp hp with ⟨q, hq, rfl⟩
    exact henv q hq
  have h3 : ∀ p ∈ buf.map (fun p => (p.1, p.2.map InsertQuery.to_query)),
      0 < dur p.1 := by
    intro p hp
    rcases List.mem_map.mp hp with ⟨q, hq, rfl⟩
    exact hdur q hq
  rw [flush_insert_buffer, if_neg h,
    flushTables_ok env dur now _ [] [] h1 h2 h3,
    foldl_appendOneMetric_from_empty dur now _ hsne]
  simp [List.map_map, Function.comp_def]

/-! Claim C1. -/

/-- C1: `flush_insert_buffer` follows the snapshot-then-clear discipline.
Under the operating conditions of the flush loop (every snapshot entry has at
least one line, the driver raises no uncaught connection error, measured
durations are positive): a flush of a non-empty buffer leaves the buffer
holding exactly the metrics records generated by that flush — one per flushed
table, keyed at the metrics table — and none of the snapshot's records; a
flush of an empty buffer performs zero write requests and appends no metrics,
so any number of repeated flushes starting from an empty buffer ends with an
empty buffer. -/
theorem c1_flush_snapshot_then_clear (env : Table → WriteOutcome) (dur : Table → ℚ)
    (now : Int) (buf : Buffer) (n : Nat)
    (hne : ∀ p ∈ buf, p.2 ≠ ([] : List InsertQuery))
    (henv : ∀ p ∈ buf, env p.1 ≠ WriteOutcome.connectionError)
    (hdur : ∀ p ∈ buf, 0 < dur p.1) :
    (buf ≠ [] → flush_insert_buffer env dur now buf =
      FlushResult.mk
        [(metrics_table, buf.map (fun p =>
          metricRecord Keyword.insert p.1 p.2.length (dur p.1) p.2.length now))]
        (buf.map (fun p => (p.1, p.2.length))) none)
    ∧ flush_insert_buffer env dur now [] = FlushResult.mk [] [] none
    ∧ (fun b => (flush_insert_buffer env dur now b).buffer)^[n] [] = [] := by
  refine ⟨fun h => flush_insert_buffer_ok env dur now buf hne henv hdur h, rfl, ?_⟩
  induction n with
  | zero => rfl
  | succ m ih => rw [Function.iterate_succ_apply, show (flush_insert_buffer env dur now []).buffer = [] from rfl, ih]

/-- Witness for C1 at a concrete two-table buffer. -/
theorem c1_flush_snapshot_then_clear_witness :
    (∀ p ∈ bufAB, p.2 ≠ ([] : List InsertQuery)) ∧
    (∀ p ∈ bufAB, envOk p.1 ≠ WriteOutcome.connectionError) ∧
    (∀ p ∈ bufAB, 0 < dur1 p.1) ∧
    bufAB ≠ [] ∧
    flush_insert_buffer envOk dur1 0 bufAB =
      FlushResult.mk
        [(metrics_table, bufAB.map (fun p =>
          metricRecord Keyword.insert p.1 p.2.length (dur1 p.1) p.2.length 0))]
        (bufAB.map (fun p => (p.1, p.2.length))) none :=
  ⟨by decide, by decide, by decide, by decide,
    (c1_flush_snapshot_then_clear envOk dur1 0 bufAB 3
      (by decide) (by decide) (by decide)).1 (by decide)⟩

/-! Claim C2. -/

/-- C2 (amended): during `flush_insert_buffer`, an `InfluxDBClientError` or
`InfluxDBServerError` while submitting one table's batch is caught and does
not prevent the remaining tables' batches from being submitted, and after
every table's submission — succeeded or failed — a metrics record with
keyword INSERT, that table's line count and the measured wall-clock duration
is appended to the buffer. This holds provided every flushed table has at
least one line and no submission raises a transport-level connection error
(which `flush_insert_buffer` does not catch; see the counterexample). -/
theorem c2_flush_isolates_influx_errors (env : Table → WriteOutcome) (dur : Table → ℚ)
    (now : Int) (buf : Buffer)
    (hne : ∀ p ∈ buf, p.2 ≠ ([] : List InsertQuery))
    (henv : ∀ p ∈ buf, env p.1 ≠ WriteOutcome.connectionError)
    (hdur : ∀ p ∈ buf, 0 < dur p.1) :
    (flush_insert_buffer env dur now buf).err = none
    ∧ (flush_insert_buffer env dur now buf).writes =
        buf.map (fun p => (p.1, p.2.length))
    ∧ (buf ≠ [] → alookup (flush_insert_buffer env dur now buf).buffer metrics_table =
        some (buf.map (fun p =>
          metricRecord Keyword.insert p.1 p.2.length (dur p.1) p.2.length now))) := by
  by_cases h : buf = []
  · subst h
    exact ⟨rfl, rfl, fun hc => absurd rfl hc⟩
  · rw [flush_insert_buffer_ok env dur now buf hne henv hdur h]
    exact ⟨rfl, rfl, fun _ => by simp [alookup]⟩

/-- Witness for C2: a server error on table B's batch in a flush that also
contains table A does not prevent either batch from being submitted, and both
metrics records are appended. -/
theorem c2_flush_isolates_influx_errors_witness :
    (∀ p ∈ bufAB, p.2 ≠ ([] : List InsertQuery)) ∧
    (∀ p ∈ bufAB, envServerErrB p.1 ≠ WriteOutcome.connectionError) ∧
    (∀ p ∈ bufAB, 0 < dur1 p.1) ∧
    (flush_insert_buffer envServerErrB dur1 0 bufAB).err = none ∧
    (flush_insert_buffer envServerErrB dur1 0 bufAB).writes =
      bufAB.map (fun p => (p.1, p.2.length)) :=
  ⟨by decide, by decide, by decide,
    (c2_flush_isolates_influx_errors envServerErrB dur1 0 bufAB
      (by decide) (by decide) (by decide)).1,
    (c2_flush_isolates_influx_errors envServerErrB dur1 0 bufAB
      (by decide) (by decide) (by decide)).2.1⟩

/-- C2 counterexample: a transport-level `requests` connection error on table
A's batch is not caught by `flush_insert_buffer`: the flush aborts with the
error, and table B's batch — also part of the snapshot — is never submitted
(the attempted-write trace stops at A). -/
theorem c2_connection_error_not_caught_cex :
    (flush_insert_buffer envConnA dur1 0 bufAB).writes = [(tA, 1)] ∧
    (flush_insert_buffer envConnA dur1 0 bufAB).err = some errConnection ∧
    tB ∈ bufAB.map (fun p => p.1) := by
  refine ⟨rfl, rfl, by decide⟩

/-! Claim C9. -/

/-- C9: mapping a table to an empty pending list is reachable by ingesting a
non-empty row list in which every row fails classification, and the next
flush on a buffer starting with such an entry raises the ValueError of the
metrics argument check (`batch_size < 1`) after attempting only that table's
empty write, aborting the processing of all remaining tables. -/
theorem c9_empty_entry_flush_aborts (env : Table → WriteOutcome) (dur : Table → ℚ)
    (now : Int) (t : Table) (k : Nat) (rest : Buffer)
    (hname : t.name ≠ emptyStr) (hk : 0 < k)
    (henv : env t ≠ WriteOutcome.connectionError) (hdur : 0 < dur t) :
    insert_dicts_to_buffer env dur now t (List.replicate k RawRow.bad) [] =
      Except.ok ([(t, [])], 0)
    ∧ flush_insert_buffer env dur now ((t, []) :: rest) =
      FlushResult.mk [] [(t, 0)] (some errBatchSize) := by
  constructor
  · have hr : List.replicate k RawRow.bad ≠ [] := by
      simp only [ne_eq, List.replicate_eq_nil_iff]
      omega
    simp only [insert_dicts_to_buffer, if_neg hname, if_neg hr,
      filterMap_replicate_none (rowToQuery t) RawRow.bad rfl k, alookup_nil,
      Option.getD_none, List.append_nil]
    simp [aset, alookup, query_max_batch_size]
  · have hmet : insert_metrics_to_buffer Keyword.insert [(t, 0)] (dur t) 0 now [] =
        Except.error errBatchSize := by
      rw [insert_metrics_to_buffer, if_neg (by simp), if_neg (not_le.mpr hdur),
        if_pos (by omega)]
    rw [flush_insert_buffer, if_neg (List.cons_ne_nil _ _)]
    cases he : env t with
    | connectionError => exact absurd he henv
    | ok => simp [flushTables, he, hmet]
    | clientError => simp [flushTables, he, hmet]
    | serverError => simp [flushTables, he, hmet]

/-- Witness for C9 at a concrete table and remaining buffer. -/
theorem c9_empty_entry_flush_aborts_witness :
    tA.name ≠ emptyStr ∧ 0 < 2 ∧ envOk tA ≠ WriteOutcome.connectionError ∧
    0 < dur1 tA ∧
    insert_dicts_to_buffer envOk dur1 0 tA (List.replicate 2 RawRow.bad) [] =
      Except.ok ([(tA, [])], 0) ∧
    flush_insert_buffer envOk dur1 0 ((tA, []) :: [(tB, [qryB])]) =
      FlushResult.mk [] [(tA, 0)] (some errBatchSize) :=
  ⟨by decide, by decide, by decide, by decide,
    (c9_empty_entry_flush_aborts envOk dur1 0 tA 2 [(tB, [qryB])]
      (by decide) (by decide) (by decide) (by decide)).1,
    (c9_empty_entry_flush_aborts envOk dur1 0 tA 2 [(tB, [qryB])]
      (by decide) (by decide) (by decide) (by decide)).2⟩

/-! Claim C3. -/

/-- The no-flush branch of ingestion: at or below the threshold the rows are
only appended. -/
theorem insert_no_flush_of_le (env : Table → WriteOutcome) (dur : Table → ℚ)
    (now : Int) (t : Table) (rows : List RawRow) (buf : Buffer)
    (hname : t.name ≠ emptyStr) (hrows : rows ≠ [])
    (h : ((alookup buf t).getD [] ++ rows.filterMap (rowToQuery t)).length ≤
      5 * query_max_batch_size) :
    insert_dicts_to_buffer env dur now t rows buf =
      Except.ok (aset buf t ((alookup buf t).getD [] ++ rows.filterMap (rowToQuery t)), 0) := by
  simp only [insert_dicts_to_buffer, if_neg hname, if_neg hrows]
  rw [if_neg]
  rw [alookup_aset_self, Option.getD_some]
  exact Nat.not_lt.mpr h

/-- C3 (amended): for every table, `insert_dicts_to_buffer` never triggers an
implicit flush while the table's pending count after appending is at most
5 × `query_max_batch_size` — in particular no flush happens at exactly
5 × 10000, where the claim's "at least" predicts one (see the counterexample;
the source comparison is strict) — and whenever the pending count after
appending strictly exceeds 5 × 10000 it triggers the full flush exactly once,
running it to completion before ingestion returns. -/
theorem c3_implicit_flush_threshold (env : Table → WriteOutcome) (dur : Table → ℚ)
    (now : Int) (t : Table) (rows : List RawRow) (buf : Buffer)
    (hname : t.name ≠ emptyStr) (hrows : rows ≠ []) :
    (((alookup buf t).getD [] ++ rows.filterMap (rowToQuery t)).length ≤
        5 * query_max_batch_size →
      insert_dicts_to_buffer env dur now t rows buf =
        Except.ok (aset buf t ((alookup buf t).getD [] ++ rows.filterMap (rowToQuery t)), 0))
    ∧ (5 * query_max_batch_size <
        ((alookup buf t).getD [] ++ rows.filterMap (rowToQuery t)).length →
      (flush_insert_buffer env dur now
        (aset buf t ((alookup buf t).getD [] ++ rows.filterMap (rowToQuery t)))).err = none →
      insert_dicts_to_buffer env dur now t rows buf =
        Except.ok ((flush_insert_buffer env dur now
          (aset buf t ((alookup buf t).getD [] ++ rows.filterMap (rowToQuery t)))).buffer, 1)) := by
  have hlk : ((alookup (aset buf t ((alookup buf t).getD [] ++
      rows.filterMap (rowToQuery t))) t).getD []).length =
      ((alookup buf t).getD [] ++ rows.filterMap (rowToQuery t)).length := by
    rw [alookup_aset_self]
    rfl
  constructor
  · exact fun h => insert_no_flush_of_le env dur now t rows buf hname hrows h
  · intro h herr
    simp only [insert_dicts_to_buffer, if_neg hname, if_neg hrows]
    rw [if_pos (by rw [hlk]; exact h), herr]

/-- Witness for C3 at a below-threshold concrete input. -/
theorem c3_implicit_flush_threshold_witness :
    tA.name ≠ emptyStr ∧ ([RawRow.good [] [] 0] : List RawRow) ≠ [] ∧
    ((alookup ([] : Buffer) tA).getD [] ++
      ([RawRow.good [] [] 0] : List RawRow).filterMap (rowToQuery tA)).length ≤
      5 * query_max_batch_size ∧
    insert_dicts_to_buffer envOk dur1 0 tA [RawRow.good [] [] 0] [] =
      Except.ok (aset [] tA ((alookup ([] : Buffer) tA).getD [] ++
        ([RawRow.good [] [] 0] : List RawRow).filterMap (rowToQuery tA)), 0) :=
  ⟨by decide, by decide, by decide,
    (c3_implicit_flush_threshold envOk dur1 0 tA [RawRow.good [] [] 0] []
      (by decide) (by decide)).1 (by decide)⟩

/-- C3 counterexample: ingesting exactly 5 × 10000 = 50000 rows into an empty
buffer reaches a pending count that is "at least 5 × the maximum batch size",
yet no implicit flush is triggered (the returned flush count is 0 and the
rows are still pending): the source flushes only on a strictly greater
count. -/
theorem c3_threshold_boundary_cex :
    insert_dicts_to_buffer envOk dur1 0 tA
        (List.replicate 50000 (RawRow.good [] [] 0)) [] =
      Except.ok ([(tA, List.replicate 50000 (InsertQuery.mk tA [] [] 0))], 0)
    ∧ (List.replicate 50000 (InsertQuery.mk tA [] [] 0)).length =
      5 * query_max_batch_size := by
  constructor
  · have hr : List.replicate 50000 (RawRow.good [] [] 0) ≠ [] := by
      intro h
      have h2 := congrArg List.length h
      rw [List.length_replicate, List.length_nil] at h2
      exact absurd h2 (by norm_num)
    have hfm := filterMap_replicate_some (rowToQuery tA)
      (RawRow.good [] [] 0) (InsertQuery.mk tA [] [] 0) rfl 50000
    have hlen : ((alookup ([] : Buffer) tA).getD [] ++
        (List.replicate 50000 (RawRow.good [] [] 0)).filterMap (rowToQuery tA)).length ≤
        5 * query_max_batch_size := by
      rw [alookup_nil, Option.getD_none, List.nil_append, hfm, List.length_replicate]
      norm_num [query_max_batch_size]
    rw [insert_no_flush_of_le envOk dur1 0 tA _ [] (by decide) hr hlen,
      alookup_nil, Option.getD_none, List.nil_append, hfm]
    rfl
  · rw [List.length_replicate]
    norm_num [query_max_batch_size]

/-! Claims C4 and C7: the selection-query executor. -/

theorem selFinish_trace (kw : Keyword) (tables : List Table) (qstr : String)
    (qdur : ℚ) (now : Int) (result : ResultSet) (buf : Buffer)
    (wtrace : List DriverOp) :
    (selFinish kw tables qstr qdur now result buf wtrace).trace =
      wtrace ++ [DriverOp.queryOp qstr] := by
  simp only [selFinish]
  split <;> rfl

theorem selFinish_ok (kw : Keyword) (tables : List Table) (qstr : String)
    (qdur : ℚ) (now : Int) (result : ResultSet) (buf : Buffer)
    (wtrace : List DriverOp) (htb : tables ≠ []) (hd : 0 < qdur) :
    selFinish kw tables qstr qdur now result buf wtrace =
      SelOutput.mk (Except.ok result)
        (aset buf metrics_table ((alookup buf metrics_table).getD [] ++
          tables.map (fun t => metricRecord kw t
            ((if result.series.isEmpty then 0 else (result.series.headD []).length) /
              tables.length) qdur 1 now)))
        (wtrace ++ [DriverOp.queryOp qstr]) := by
  simp only [selFinish]
  rw [insert_metrics_ok _ _ _ _ _ _ (by simpa using htb) hd (le_refl 1)]
  simp [List.map_map, Function.comp_def]

/-- C4 (amended): `send_selection_query` performs a full flush of the entire
buffer — every buffered table's batch, in buffer order, before the single
query call — exactly when some target table is a key of the insert buffer
(even one whose pending list is empty: the source tests key membership, not
"has entries"; see the counterexample); when no target table is a buffer key,
the trace is the query call alone. Stated under the flush operating
conditions (non-empty pending lists, positive durations, no uncaught
connection error). -/
theorem c4_select_flushes_before_query (env : Table → WriteOutcome) (dur : Table → ℚ)
    (now : Int) (qout : QueryOutcome) (qdur : ℚ) (q : SelectionQuery) (buf : Buffer)
    (hne : ∀ p ∈ buf, p.2 ≠ ([] : List InsertQuery))
    (henv : ∀ p ∈ buf, env p.1 ≠ WriteOutcome.connectionError)
    (hdur : ∀ p ∈ buf, 0 < dur p.1) :
    (q.tables.any (fun t => (alookup buf t).isSome) = true →
      (send_selection_query env dur now qout qdur q buf).trace =
        buf.map (fun p => DriverOp.write p.1 p.2.length) ++ [DriverOp.queryOp q.to_query])
    ∧ (q.tables.any (fun t => (alookup buf t).isSome) = false →
      (send_selection_query env dur now qout qdur q buf).trace =
        [DriverOp.queryOp q.to_query]) := by
  constructor
  · intro hflag
    have hbne : buf ≠ [] := by
      intro hb
      subst hb
      rw [List.any_eq_true] at hflag
      rcases hflag with ⟨t, _, hs⟩
      simp [alookup] at hs
    have hfl := flush_insert_buffer_ok env dur now buf hne henv hdur hbne
    simp only [send_selection_query]
    rw [if_pos hflag, hfl]
    cases qout with
    | connectionError => simp [List.map_map, Function.comp_def]
    | influxError => simp [selFinish_trace, List.map_map, Function.comp_def]
    | ok rs => simp [selFinish_trace, List.map_map, Function.comp_def]
  · intro hflag
    simp only [send_selection_query]
    rw [if_neg (by simp [hflag])]
    cases qout with
    | connectionError => simp
    | influxError => simp [selFinish_trace]
    | ok rs => simp [selFinish_trace]

/-- Witness for C4: a query over table A with A buffered triggers the full
flush of the two-table buffer before the query call. -/
theorem c4_select_flushes_before_query_witness :
    (∀ p ∈ bufAB, p.2 ≠ ([] : List InsertQuery)) ∧
    (selA.tables.any (fun t => (alookup bufAB t).isSome) = true) ∧
    (send_selection_query envOk dur1 0 (QueryOutcome.ok (ResultSet.mk [])) 1 selA
        bufAB).trace =
      bufAB.map (fun p => DriverOp.write p.1 p.2.length) ++
        [DriverOp.queryOp selA.to_query] :=
  ⟨by decide, by decide,
    (c4_select_flushes_before_query envOk dur1 0 (QueryOutcome.ok (ResultSet.mk []))
      1 selA bufAB (by decide) (by decide) (by decide)).1 (by decide)⟩

/-- C4 counterexample: with the buffer mapping table A to an empty pending
list — so no target table "has entries" — a selection query over A still
enters the flush path (the source tests key membership): the first driver
call is A's write attempt, not the query, which the claim's no-pending-entries
direction forbids. -/
theorem c4_key_membership_cex :
    alookup [(tA, ([] : List InsertQuery))] tA = some [] ∧
    (send_selection_query envOk dur1 0 (QueryOutcome.ok (ResultSet.mk [])) 1 selA
        [(tA, [])]).trace = [DriverOp.write tA 0] := by
  exact ⟨rfl, rfl⟩

/-- C7 (amended): on an `InfluxDBClientError` / `InfluxDBServerError` during
query execution, `send_selection_query` swallows the error: it returns the
empty well-formed result set — the same value a zero-row success returns —
and still appends one metrics record with row count 0 for each queried table;
but a `requests` connection error is not caught and propagates to the caller
(see the counterexample). Stated for a query whose target tables are not
buffered (so no flush interferes), a non-empty table list and a positive
measured duration. -/
theorem c7_select_error_swallowed (env : Table → WriteOutcome) (dur : Table → ℚ)
    (now : Int) (qdur : ℚ) (q : SelectionQuery) (buf : Buffer)
    (hnf : ∀ t ∈ q.tables, alookup buf t = none)
    (htb : q.tables ≠ []) (hd : 0 < qdur) :
    (send_selection_query env dur now QueryOutcome.influxError qdur q buf).result =
      Except.ok (ResultSet.mk [])
    ∧ (send_selection_query env dur now QueryOutcome.influxError qdur q buf).result =
      (send_selection_query env dur now (QueryOutcome.ok (ResultSet.mk [])) qdur q buf).result
    ∧ alookup (send_selection_query env dur now QueryOutcome.influxError qdur q buf).buffer
        metrics_table =
      some ((alookup buf metrics_table).getD [] ++
        q.tables.map (fun t => metricRecord q.keyword t 0 qdur 1 now)) := by
  have hflag : q.tables.any (fun t => (alookup buf t).isSome) = false := by
    rw [List.any_eq_false]
    intro t ht
    rw [hnf t ht]
    simp
  have e1 : send_selection_query env dur now QueryOutcome.influxError qdur q buf =
      selFinish q.keyword q.tables q.to_query qdur now (ResultSet.mk []) buf [] := by
    simp only [send_selection_query]
    rw [if_neg (by simp [hflag])]
    rfl
  have e2 : send_selection_query env dur now (QueryOutcome.ok (ResultSet.mk [])) qdur q buf =
      selFinish q.keyword q.tables q.to_query qdur now (ResultSet.mk []) buf [] := by
    simp only [send_selection_query]
    rw [if_neg (by simp [hflag])]
    rfl
  rw [e1, e2, selFinish_ok q.keyword q.tables q.to_query qdur now (ResultSet.mk []) buf []
    htb hd]
  refine ⟨rfl, rfl, ?_⟩
  rw [alookup_aset_self]
  simp [Nat.zero_div]

/-- Witness for C7 at a concrete query over an unbuffered table. -/
theorem c7_select_error_swallowed_witness :
    (∀ t ∈ selA.tables, alookup ([] : Buffer) t = none) ∧
    selA.tables ≠ [] ∧ (0 : ℚ) < 1 ∧
    (send_selection_query envOk dur1 0 QueryOutcome.influxError 1 selA []).result =
      Except.ok (ResultSet.mk []) ∧
    alookup (send_selection_query envOk dur1 0 QueryOutcome.influxError 1 selA
        []).buffer metrics_table =
      some ((alookup ([] : Buffer) metrics_table).getD [] ++
        selA.tables.map (fun t => metricRecord selA.keyword t 0 1 1 0)) :=
  ⟨by decide, by decide, by decide,
    (c7_select_error_swallowed envOk dur1 0 1 selA []
      (by decide) (by decide) (by decide)).1,
    (c7_select_error_swallowed envOk dur1 0 1 selA []
      (by decide) (by decide) (by decide)).2.2⟩

/-- C7 counterexample: a transport-level `requests` connection error during
query execution is not caught by `send_selection_query`: the call propagates
the error to its caller instead of returning an empty result set. -/
theorem c7_connection_error_propagates_cex :
    (send_selection_query envOk dur1 0 QueryOutcome.connectionError 1 selA []).result =
      Except.error errConnection := by
  rfl

/-! Claim C5. -/

theorem rpWalk_two_defaults (rp_dict : List (String × RetentionPolicy)) :
    ∀ (desired : List RetentionPolicy) (b : Bool)
      (addL altL : List RetentionPolicy),
      2 ≤ desired.countP (fun rp => rp.default) + (if b then 1 else 0) →
      rpWalk rp_dict desired b addL altL = Except.error errRpMultipleDefault := by
  intro desired
  induction desired with
  | nil =>
    intro b addL altL h
    rw [List.countP_nil] at h
    cases b <;> simp at h
  | cons rp rest ih =>
    intro b addL altL h
    rw [List.countP_cons] at h
    cases hrp : rp.default with
    | true =>
      cases b with
      | true => simp [rpWalk, hrp]
      | false =>
        have h2 : 2 ≤ rest.countP (fun rp => rp.default) + (if true then 1 else 0) := by
          simpa [hrp] using h
        cases halk : alookup rp_dict rp.name with
        | none =>
          simp [rpWalk, hrp, halk]
          exact ih true _ _ h2
        | some r =>
          by_cases heq : r = rp.to_dict
          · simp [rpWalk, hrp, halk, heq]
            exact ih true _ _ h2
          · simp [rpWalk, hrp, halk, heq]
            exact ih true _ _ h2
    | false =>
      have h2 : 2 ≤ rest.countP (fun rp => rp.default) + (if b then 1 else 0) := by
        simpa [hrp] using h
      cases halk : alookup rp_dict rp.name with
      | none =>
        simp [rpWalk, hrp, halk]
        exact ih b _ _ h2
      | some r =>
        by_cases heq : r = rp.to_dict
        · simp [rpWalk, hrp, halk, heq]
          exact ih b _ _ h2
        · simp [rpWalk, hrp, halk, heq]
          exact ih b _ _ h2

/-- C5 (amended): when two (or more) retention policies of the desired set
are both marked default, `check_create_rp` raises the fatal check error, and
no mutating server call (create or alter) is issued — the rejection does
happen before any create/alter, but only after the initial
`get_list_retention_policies` fetch, which is itself a server call (see the
counterexample against "before any call to the server"). -/
theorem c5_duplicate_default_rejected (server desired : List RetentionPolicy)
    (h : 2 ≤ desired.countP (fun rp => rp.default)) :
    check_create_rp server desired = ([RpOp.fetchList], some errRpCheckFailed) := by
  simp only [check_create_rp]
  rw [rpWalk_two_defaults _ desired false [] [] (by simpa using h)]

/-- Witness for C5 with two concrete default-marked policies. -/
theorem c5_duplicate_default_rejected_witness :
    2 ≤ ([rpDefA, rpDefB].countP (fun rp => rp.default)) ∧
    check_create_rp [] [rpDefA, rpDefB] = ([RpOp.fetchList], some errRpCheckFailed) :=
  ⟨by decide, c5_duplicate_default_rejected [] [rpDefA, rpDefB] (by decide)⟩

/-- C5 counterexample: on a desired set with two default policies the check
does reject — but its server-call trace at the moment of rejection is the
non-empty `[fetchList]`: `get_list_retention_policies` is called before the
duplicate-default check runs, so the rejection does not happen before any
call to the server. -/
theorem c5_fetch_precedes_rejection_cex :
    (check_create_rp [] [rpDefA, rpDefB]).2 = some errRpCheckFailed ∧
    (check_create_rp [] [rpDefA, rpDefB]).1 = [RpOp.fetchList] ∧
    ([RpOp.fetchList] : List RpOp) ≠ [] := by
  refine ⟨rfl, rfl, by decide⟩

/-! Claim C6. -/

/-- C6 (amended): the per-table duration recorded by the metrics recorder is
`duration_s * 1000 * (max(item_count, 1) / batch_size)`: for item counts
c ≥ 1 this is the claimed proportional share D × 1000 × (c / B), and across
the tables of one batch (all counts ≥ 1, summing to the batch size) the
recorded durations sum exactly to the measured total; but for c = 0 the
record carries D × 1000 × (1 / B), not the claimed 0 (see the
counterexample). -/
theorem c6_duration_apportionment (D : ℚ) (counts : List Nat) (B c : Nat)
    (hB : 1 ≤ B) (hc : 1 ≤ c) (hcounts : ∀ x ∈ counts, 1 ≤ x)
    (hsum : counts.sum = B) :
    duration_ms D c B = D * 1000 * ((c : ℚ) / (B : ℚ))
    ∧ duration_ms D 0 B = D * 1000 * (1 / (B : ℚ))
    ∧ (counts.map (fun x => duration_ms D x B)).sum = D * 1000 := by
  have hB0 : ((B : Nat) : ℚ) ≠ 0 := by
    exact_mod_cast Nat.pos_iff_ne_zero.mp hB
  refine ⟨?_, ?_, ?_⟩
  · rw [duration_ms, Nat.max_eq_left hc]
  · rw [duration_ms]
    norm_num
  · have aux : ∀ l : List Nat, (∀ x ∈ l, 1 ≤ x) →
        (l.map (fun x => duration_ms D x B)).sum =
          D * 1000 * ((l.sum : ℚ) / (B : ℚ)) := by
      intro l
      induction l with
      | nil => intro _; simp
      | cons x xs ih =>
        intro hl
        rw [List.map_cons, List.sum_cons,
          ih (fun y hy => hl y (List.mem_cons_of_mem x hy)),
          duration_ms, Nat.max_eq_left (hl x (List.mem_cons_self x xs)),
          List.sum_cons]
        push_cast
        ring
    rw [aux counts hcounts, hsum, div_self hB0, mul_one]

/-- Witness for C6 at the spec's example: a 1000 ms batch over tables with 7
and 3 rows apportions 700 ms and 300 ms, summing to the total. -/
theorem c6_duration_apportionment_witness :
    (1 ≤ 10) ∧ (1 ≤ 7) ∧ (∀ x ∈ [7, 3], 1 ≤ x) ∧ ([7, 3].sum = 10) ∧
    duration_ms 1 7 10 = 1 * 1000 * ((7 : ℚ) / (10 : ℚ)) ∧
    ([7, 3].map (fun x => duration_ms 1 x 10)).sum = 1 * 1000 :=
  ⟨by decide, by decide, by decide, by decide,
    (c6_duration_apportionment 1 [7, 3] 10 7 (by decide) (by decide)
      (by decide) (by decide)).1,
    (c6_duration_apportionment 1 [7, 3] 10 7 (by decide) (by decide)
      (by decide) (by decide)).2.2⟩

/-- C6 counterexample: for a table with item count 0 in a batch of size 1 and
measured duration 1 s, the claimed formula D × 1000 × (c / B) gives 0, but the
recorder computes `max(item_count, 1)` and stores 1000 ms in the record's
duration field. -/
theorem c6_zero_count_cex :
    duration_ms 1 0 1 = 1000 ∧
    (1 : ℚ) * 1000 * (((0 : Nat) : ℚ) / ((1 : Nat) : ℚ)) = 0 ∧
    (metricRecord Keyword.insert tA 0 1 1 0).fields =
      [(fldDurationMs, FieldValue.q 1000), (fldItemCount, FieldValue.i 0)] := by
  refine ⟨?_, ?_, ?_⟩
  · rw [duration_ms]
    norm_num
  · norm_num
  · simp only [metricRecord, duration_ms]
    norm_num

/-! Claim C8. -/

theorem mem_cqAdd (server : List (String × String)) (desired : List ContinuousQuery)
    (cq : ContinuousQuery) :
    cq ∈ cqAdd server desired ↔
      cq ∈ desired ∧ alookup (cqServerDict server) cq.name = none := by
  simp [cqAdd, List.mem_filter, Option.isNone_iff_eq_none]

theorem mem_cqAlt (server : List (String × String)) (desired : List ContinuousQuery)
    (cq : ContinuousQuery) :
    cq ∈ cqAlt server desired ↔
      cq ∈ desired ∧ ∃ qs, alookup (cqServerDict server) cq.name = some qs ∧
        qs ≠ cq.query := by
  simp only [cqAlt, List.mem_filter]
  constructor
  · rintro ⟨h1, h2⟩
    refine ⟨h1, ?_⟩
    cases halk : alookup (cqServerDict server) cq.name with
    | none =>
      rw [halk] at h2
      simp at h2
    | some qs =>
      rw [halk] at h2
      exact ⟨qs, rfl, by simpa using h2⟩
  · rintro ⟨h1, qs, halk, hne⟩
    refine ⟨h1, ?_⟩
    rw [halk]
    simpa using hne

theorem mem_drop_check_create_cq (server : List (String × String))
    (desired : List ContinuousQuery) (n : String) :
    CqOp.drop n ∈ check_create_cq server desired ↔
      ∃ cq2, cq2 ∈ cqAlt server desired ∧ cq2.name = n := by
  simp [check_create_cq, List.mem_map, List.mem_append]

theorem mem_create_check_create_cq (server : List (String × String))
    (desired : List ContinuousQuery) (n : String) :
    CqOp.create n ∈ check_create_cq server desired ↔
      ∃ cq2, (cq2 ∈ cqAdd server desired ∨ cq2 ∈ cqAlt server desired) ∧
        cq2.name = n := by
  simp only [check_create_cq, List.mem_cons, List.mem_append, List.mem_map]
  constructor
  · rintro (h | (⟨a, ha, h⟩ | ⟨a, ha, h⟩))
    · exact absurd h (by simp)
    · exact absurd h (by simp)
    · exact ⟨a, ha, by simpa using h⟩
  · rintro ⟨a, ha, rfl⟩
    exact Or.inr (Or.inr ⟨a, ha, rfl⟩)

/-- C8: in `check_create_cq`, every desired continuous query absent from the
server's reported set is created and never dropped; every one present whose
server-reported query string differs from the desired rendered form is both
dropped and re-created, with all drops issued before any create (the drop
list is merged into the add list before creates are issued); every one
present and equal to its rendered form triggers no drop and no create.
Stated for a catalog with distinct continuous-query names. -/
theorem c8_cq_reconciliation (server : List (String × String))
    (desired : List ContinuousQuery)
    (hnd : (desired.map (fun cq => cq.name)).Nodup) :
    (∃ ds cs, check_create_cq server desired = CqOp.fetchList :: (ds ++ cs) ∧
      (∀ x ∈ ds, ∃ n, x = CqOp.drop n) ∧ (∀ x ∈ cs, ∃ n, x = CqOp.create n))
    ∧ ∀ cq ∈ desired,
      (alookup (cqServerDict server) cq.name = none →
        CqOp.create cq.name ∈ check_create_cq server desired ∧
        CqOp.drop cq.name ∉ check_create_cq server desired)
      ∧ (∀ qs, alookup (cqServerDict server) cq.name = some qs → qs ≠ cq.query →
        CqOp.drop cq.name ∈ check_create_cq server desired ∧
        CqOp.create cq.name ∈ check_create_cq server desired)
      ∧ (alookup (cqServerDict server) cq.name = some cq.query →
        CqOp.drop cq.name ∉ check_create_cq server desired ∧
        CqOp.create cq.name ∉ check_create_cq server desired) := by
  have hinj := List.inj_on_of_nodup_map hnd
  constructor
  · refine ⟨(cqAlt server desired).map (fun cq => CqOp.drop cq.name),
      ((cqAdd server desired) ++ (cqAlt server desired)).map
        (fun cq => CqOp.create cq.name), ?_, ?_, ?_⟩
    · rfl
    · intro x hx
      rcases List.mem_map.mp hx with ⟨cq2, _, rfl⟩
      exact ⟨cq2.name, rfl⟩
    · intro x hx
      rcases List.mem_map.mp hx with ⟨cq2, _, rfl⟩
      exact ⟨cq2.name, rfl⟩
  · intro cq hcq
    refine ⟨?_, ?_, ?_⟩
    · intro halk
      constructor
      · exact (mem_create_check_create_cq server desired cq.name).mpr
          ⟨cq, Or.inl ((mem_cqAdd server desired cq).mpr ⟨hcq, halk⟩), rfl⟩
      · intro hd
        rcases (mem_drop_check_create_cq server desired cq.name).mp hd
          with ⟨cq2, hcq2, hname⟩
        rcases (mem_cqAlt server desired cq2).mp hcq2 with ⟨hcq2d, qs, halk2, _⟩
        have : cq2 = cq := hinj hcq2d hcq hname
        subst this
        rw [halk] at halk2
        exact Option.noConfusion halk2
    · intro qs halk hne
      have hcqalt : cq ∈ cqAlt server desired :=
        (mem_cqAlt server desired cq).mpr ⟨hcq, qs, halk, hne⟩
      exact ⟨(mem_drop_check_create_cq server desired cq.name).mpr ⟨cq, hcqalt, rfl⟩,
        (mem_create_check_create_cq server desired cq.name).mpr
          ⟨cq, Or.inr hcqalt, rfl⟩⟩
    · intro halk
      constructor
      · intro hd
        rcases (mem_drop_check_create_cq server desired cq.name).mp hd
          with ⟨cq2, hcq2, hname⟩
        rcases (mem_cqAlt server desired cq2).mp hcq2 with ⟨hcq2d, qs, halk2, hne2⟩
        have : cq2 = cq := hinj hcq2d hcq hname
        subst this
        rw [halk] at halk2
        exact hne2 (by injection halk2 with h2; exact h2.symm ▸ rfl)
      · intro hc
        rcases (mem_create_check_create_cq server desired cq.name).mp hc
          with ⟨cq2, hor, hname⟩
        cases hor with
        | inl hadd =>
          rcases (mem_cqAdd server desired cq2).mp hadd with ⟨hcq2d, halk2⟩
          have : cq2 = cq := hinj hcq2d hcq hname
          subst this
          rw [halk] at halk2
          exact Option.noConfusion halk2
        | inr halt =>
          rcases (mem_cqAlt server desired cq2).mp halt with ⟨hcq2d, qs, halk2, hne2⟩
          have : cq2 = cq := hinj hcq2d hcq hname
          subst this
          rw [halk] at halk2
          exact hne2 (by injection halk2 with h2; exact h2.symm ▸ rfl)

/-- Witness for C8: a desired set with one missing, one differing and one
matching continuous query against a concrete server state. -/
theorem c8_cq_reconciliation_witness :
    (([ContinuousQuery.mk strA kwSelectStr, ContinuousQuery.mk strB kwInsertStr,
      ContinuousQuery.mk metricsTableName kwDeleteStr].map
        (fun cq => cq.name)).Nodup) ∧
    (ContinuousQuery.mk strA kwSelectStr ∈
      [ContinuousQuery.mk strA kwSelectStr, ContinuousQuery.mk strB kwInsertStr,
        ContinuousQuery.mk metricsTableName kwDeleteStr]) ∧
    (alookup (cqServerDict [(strB, kwSelectStr), (metricsTableName, kwDeleteStr)])
      strA = none →
      CqOp.create strA ∈ check_create_cq
        [(strB, kwSelectStr), (metricsTableName, kwDeleteStr)]
        [ContinuousQuery.mk strA kwSelectStr, ContinuousQuery.mk strB kwInsertStr,
          ContinuousQuery.mk metricsTableName kwDeleteStr] ∧
      CqOp.drop strA ∉ check_create_cq
        [(strB, kwSelectStr), (metricsTableName, kwDeleteStr)]
        [ContinuousQuery.mk strA kwSelectStr, ContinuousQuery.mk strB kwInsertStr,
          ContinuousQuery.mk metricsTableName kwDeleteStr]) :=
  ⟨by decide, by decide,
    ((c8_cq_reconciliation [(strB, kwSelectStr), (metricsTableName, kwDeleteStr)]
      [ContinuousQuery.mk strA kwSelectStr, ContinuousQuery.mk strB kwInsertStr,
        ContinuousQuery.mk metricsTableName kwDeleteStr] (by decide)).2
      (ContinuousQuery.mk strA kwSelectStr) (by decide)).1⟩

/-! Claim C10. -/

/-- C10: the insert buffer is the class attribute shared by all InfluxClient
instances and is never rebound per instance: no method of the source assigns
`self.__insert_buffer`, so in the attribute model every mutation lands on the
shared class-level dict and no per-instance binding ever appears. Hence
records ingested through one instance `i` are visible to and drained by a
flush performed on a distinct instance `j`: the flush through `j` submits
exactly the rows ingested through `i` and leaves only that flush's metrics
record in the shared buffer, with the per-instance attribute table still
empty. -/
theorem c10_buffer_shared_across_instances (env : Table → WriteOutcome)
    (dur : Table → ℚ) (now : Int) (i j : Nat) (t : Table) (k : Nat)
    (tg : List (String × String)) (fl : List (String × FieldValue)) (ts : Int)
    (hij : i ≠ j) (hname : t.name ≠ emptyStr) (hk : 0 < k)
    (hk2 : k ≤ 5 * query_max_batch_size)
    (henv : env t ≠ WriteOutcome.connectionError) (hdur : 0 < dur t) :
    insert_dicts_via env dur now i t (List.replicate k (RawRow.good tg fl ts))
        (World.mk [] []) =
      Except.ok (World.mk [(t, List.replicate k (InsertQuery.mk t fl tg ts))] [], 0)
    ∧ flush_via env dur now j
        (World.mk [(t, List.replicate k (InsertQuery.mk t fl tg ts))] []) =
      (World.mk [(metrics_table, [metricRecord Keyword.insert t k (dur t) k now])] [],
        [(t, k)], none) := by
  have hrows_ne : List.replicate k (RawRow.good tg fl ts) ≠ [] := by
    intro hcon
    have h2 := congrArg List.length hcon
    rw [List.length_replicate, List.length_nil] at h2
    omega
  have hrepl_ne : List.replicate k (InsertQuery.mk t fl tg ts) ≠ [] := by
    intro hcon
    have h2 := congrArg List.length hcon
    rw [List.length_replicate, List.length_nil] at h2
    omega
  have hfm := filterMap_replicate_some (rowToQuery t) (RawRow.good tg fl ts)
    (InsertQuery.mk t fl tg ts) rfl k
  constructor
  · have hcount : ((alookup ([] : Buffer) t).getD [] ++
        (List.replicate k (RawRow.good tg fl ts)).filterMap (rowToQuery t)).length ≤
        5 * query_max_batch_size := by
      rw [alookup_nil, Option.getD_none, List.nil_append, hfm, List.length_replicate]
      exact hk2
    have hins := insert_no_flush_of_le env dur now t _ [] hname hrows_ne hcount
    simp only [insert_dicts_via]
    rw [show World.read (World.mk [] []) i = ([] : Buffer) from rfl, hins, hfm]
    rfl
  · have hne2 : ∀ p ∈ [(t, List.replicate k (InsertQuery.mk t fl tg ts))],
        p.2 ≠ ([] : List InsertQuery) := by
      intro p hp
      rw [List.mem_singleton] at hp
      subst hp
      exact hrepl_ne
    have henv2 : ∀ p ∈ [(t, List.replicate k (InsertQuery.mk t fl tg ts))],
        env p.1 ≠ WriteOutcome.connectionError := by
      intro p hp
      rw [List.mem_singleton] at hp
      subst hp
      exact henv
    have hdur2 : ∀ p ∈ [(t, List.replicate k (InsertQuery.mk t fl tg ts))],
        0 < dur p.1 := by
      intro p hp
      rw [List.mem_singleton] at hp
      subst hp
      exact hdur
    have hfl := flush_insert_buffer_ok env dur now
      [(t, List.replicate k (InsertQuery.mk t fl tg ts))] hne2 henv2 hdur2
      (List.cons_ne_nil _ _)
    simp only [flush_via]
    rw [show World.read
        (World.mk [(t, List.replicate k (InsertQuery.mk t fl tg ts))] []) j =
        [(t, List.replicate k (InsertQuery.mk t fl tg ts))] from rfl, hfl]
    simp only [List.map_cons, List.map_nil, List.length_replicate]
    rfl

/-- Witness for C10 at two concrete distinct instances. -/
theorem c10_buffer_shared_across_instances_witness :
    (0 : Nat) ≠ 1 ∧ tA.name ≠ emptyStr ∧ 0 < 1 ∧ 1 ≤ 5 * query_max_batch_size ∧
    envOk tA ≠ WriteOutcome.connectionError ∧ 0 < dur1 tA ∧
    insert_dicts_via envOk dur1 0 0 tA (List.replicate 1 (RawRow.good [] [] 0))
        (World.mk [] []) =
      Except.ok (World.mk [(tA, List.replicate 1 (InsertQuery.mk tA [] [] 0))] [], 0) ∧
    flush_via envOk dur1 0 1
        (World.mk [(tA, List.replicate 1 (InsertQuery.mk tA [] [] 0))] []) =
      (World.mk [(metrics_table,
          [metricRecord Keyword.insert tA 1 (dur1 tA) 1 0])] [],
        [(tA, 1)], none) :=
  ⟨by decide, by decide, by decide, by decide, by decide, by decide,
    (c10_buffer_shared_across_instances envOk dur1 0 0 1 tA 1 [] [] 0
      (by decide) (by decide) (by decide) (by decide) (by decide) (by decide)).1,
    (c10_buffer_shared_across_instances envOk dur1 0 0 1 tA 1 [] [] 0
      (by decide) (by decide) (by decide) (by decide) (by decide) (by decide)).2⟩
